import Mathlib

/-!
Shallow embedding of the WeightSyncPro weighing system.

Sources embedded here:
* the weight validator (WeightValidator, src/unnamed/part_007),
* the client-side validation and save flow
  (src/client/src/components/weighing-interface.tsx),
* the serial scale-line parser and simulator
  (src/server/services/serialClient.ts),
* the in-memory store and route handlers (src/server/routes.ts),
* the external sync client retry loop (src/server/services/apiClient.ts).

Weights are modelled as rationals (the code works in decimal kilograms).
JavaScript truthiness of optional numeric fields (undefined and 0 are both
falsy) is modelled explicitly, since the validator branches on it.
-/

namespace WeightSyncPro

/-- Status values of a tolerance check, from shared/schema.ts
(text column commented as good, warning, error). -/
inductive ToleranceStatus
  | good
  | warning
  | error
deriving DecidableEq, Repr

/-- Weight source values, from shared/schema.ts (plc, serial, average). -/
inductive WeightSrc
  | plc
  | serial
  | average
deriving DecidableEq, Repr

/-- The validationAction union type of ValidationConfig (part_007). -/
inductive ValidationAction
  | log
  | review
  | block
deriving DecidableEq, Repr

/-- ToleranceCheck, from shared/schema.ts. -/
structure ToleranceCheck where
  difference : ℚ
  tolerance : ℚ
  status : ToleranceStatus
  finalWeight : ℚ
  weightSource : WeightSrc
deriving DecidableEq, Repr

/-- WeightReading, from shared/schema.ts; plcWeight and serialWeight are
optional numbers (timestamp and tagId carry no weight information and are
omitted). -/
structure WeightReading where
  plcWeight : Option ℚ
  serialWeight : Option ℚ
deriving DecidableEq, Repr

/-- ValidationConfig, from part_007. -/
structure ValidationConfig where
  toleranceRange : ℚ
  weightSourcePriority : WeightSrc
  validationAction : ValidationAction
deriving DecidableEq, Repr

/-- JavaScript truthiness of an optional number: undefined and 0 are falsy. -/
def truthy : Option ℚ → Bool
  | none => false
  | some x => decide (x ≠ 0)

/-- WeightValidator.getToleranceStatus (part_007 lines 50-60). -/
def getToleranceStatus (config : ValidationConfig) (difference : ℚ) :
    ToleranceStatus :=
  if difference ≤ config.toleranceRange then .good
  else if difference ≤ config.toleranceRange * 2 then .warning
  else .error

/-- WeightValidator.calculateFinalWeight (part_007 lines 62-73). -/
def calculateFinalWeight (config : ValidationConfig)
    (plcWeight serialWeight : ℚ) : ℚ :=
  match config.weightSourcePriority with
  | .plc => plcWeight
  | .serial => serialWeight
  | .average => (plcWeight + serialWeight) / 2

/-- WeightValidator.getWeightSource (part_007 lines 75-86). -/
def getWeightSource (config : ValidationConfig) : WeightSrc :=
  match config.weightSourcePriority with
  | .plc => .plc
  | .serial => .serial
  | .average => .average

/-- WeightValidator.validateWeights (part_007 lines 16-48). The code throws
when both readings are falsy; this is modelled by Except.error. -/
def validateWeights (config : ValidationConfig) (reading : WeightReading) :
    Except String ToleranceCheck :=
  let plcWeight := reading.plcWeight
  let serialWeight := reading.serialWeight
  if !truthy plcWeight && !truthy serialWeight then
    .error "No weight readings available"
  else if !truthy plcWeight || !truthy serialWeight then
    .ok { difference := 0
          tolerance := config.toleranceRange
          status := .good
          finalWeight :=
            if truthy plcWeight then plcWeight.getD 0 else serialWeight.getD 0
          weightSource := if truthy plcWeight then .plc else .serial }
  else
    let p := plcWeight.getD 0
    let s := serialWeight.getD 0
    let difference := |p - s|
    .ok { difference := difference
          tolerance := config.toleranceRange
          status := getToleranceStatus config difference
          finalWeight := calculateFinalWeight config p s
          weightSource := getWeightSource config }

/-- WeightValidator.shouldBlockWeighment (part_007 lines 96-102). -/
def shouldBlockWeighment (config : ValidationConfig) (tc : ToleranceCheck) :
    Bool :=
  if config.validationAction ≠ ValidationAction.block then false
  else decide (tc.status = ToleranceStatus.error)

/-- The default validator instance (part_007 lines 114-118):
0.05 kg tolerance, plc priority, log action. -/
def weightValidatorDefaultConfig : ValidationConfig :=
  { toleranceRange := 1/20
    weightSourcePriority := .plc
    validationAction := .log }

/-- calculateValidation from weighing-interface.tsx lines 87-125: the
client-side tolerance check with a hardcoded 0.05 tolerance; unlike the
server validator it returns a sentinel when both readings are falsy. -/
def calculateValidation (currentWeights : WeightReading) : ToleranceCheck :=
  let plcWeight := currentWeights.plcWeight
  let serialWeight := currentWeights.serialWeight
  if !truthy plcWeight && !truthy serialWeight then
    { difference := 0, tolerance := 1/20, status := .error
      finalWeight := 0, weightSource := .plc }
  else if !truthy plcWeight || !truthy serialWeight then
    { difference := 0
      tolerance := 1/20
      status := .good
      finalWeight :=
        if truthy plcWeight then plcWeight.getD 0
        else if truthy serialWeight then serialWeight.getD 0 else 0
      weightSource := if truthy plcWeight then .plc else .serial }
  else
    let p := plcWeight.getD 0
    let s := serialWeight.getD 0
    let difference := |p - s|
    { difference := difference
      tolerance := 1/20
      status :=
        if difference ≤ 1/20 then .good
        else if difference ≤ (1/20) * 2 then .warning
        else .error
      finalWeight := p
      weightSource := .plc }

/-- The disabled condition of the Save Weighment button
(weighing-interface.tsx line 376): pending, empty tag, or error status. -/
def saveWeighmentDisabled (isPending : Bool) (currentTag : String)
    (validationStatus : ToleranceStatus) : Bool :=
  isPending || currentTag == "" ||
    decide (validationStatus = ToleranceStatus.error)

/-! ## Serial scale-line parsing (serialClient.ts) -/

/-- A word character in the sense of the JavaScript regex class backslash-w:
ASCII letters, digits, underscore. -/
def isWordChar (c : Char) : Bool :=
  c.isAlpha || c.isDigit || c == '_'

/-- Model of String.prototype.trim: strip leading and trailing whitespace. -/
def trimChars (cs : List Char) : List Char :=
  ((cs.dropWhile Char.isWhitespace).reverse.dropWhile Char.isWhitespace).reverse

/-- Whether pat is a prefix of cs (character-exact). -/
def hasPrefixSeq : List Char → List Char → Bool
  | [], _ => true
  | _ :: _, [] => false
  | p :: ps, c :: cs => p == c && hasPrefixSeq ps cs

/-- Whether pat occurs as a contiguous subsequence of cs. -/
def containsSeq (pat : List Char) : List Char → Bool
  | [] => hasPrefixSeq pat []
  | c :: cs => hasPrefixSeq pat (c :: cs) || containsSeq pat cs

/-- Case-insensitive substring test: the case-insensitive regex
alternatives ST, OK, stable, US, unstable, kg reduce to this. -/
def containsCI (cs : List Char) (pat : String) : Bool :=
  containsSeq (pat.toList.map Char.toLower) (cs.map Char.toLower)

/-- Occurrence of a single letter with word boundaries on both sides,
case-insensitively: the regex alternatives for standalone S and U. -/
def hasStandalone (target : Char) : Option Char → List Char → Bool
  | _, [] => false
  | prev, c :: rest =>
    (c.toLower == target &&
      (match prev with | none => true | some p => !isWordChar p) &&
      (match rest with | [] => true | nxt :: _ => !isWordChar nxt)) ||
    hasStandalone target (some c) rest

/-- Occurrence of a single letter followed by a word boundary,
case-insensitively: the unit regex g-then-boundary. -/
def hasCharThenBoundary (target : Char) : List Char → Bool
  | [] => false
  | c :: rest =>
    (c.toLower == target &&
      (match rest with | [] => true | nxt :: _ => !isWordChar nxt)) ||
    hasCharThenBoundary target rest

/-- The stable-marker regex of parseLine (serialClient.ts line 256):
case-insensitive ST or OK or stable or standalone S. The alternative
stable is subsumed by ST but kept for fidelity. -/
def stableMarker (cs : List Char) : Bool :=
  containsCI cs "ST" || containsCI cs "OK" || containsCI cs "stable" ||
    hasStandalone 's' none cs

/-- The unstable-marker regex of parseLine (serialClient.ts line 258):
case-insensitive US or unstable or standalone U. -/
def unstableMarker (cs : List Char) : Bool :=
  containsCI cs "US" || containsCI cs "unstable" ||
    hasStandalone 'u' none cs

/-- The stability flag of parseLine: the stable-marker regex is tested
first, then the unstable-marker regex, defaulting to stable. -/
def stabilityOf (cs : List Char) : Bool :=
  if stableMarker cs then true
  else if unstableMarker cs then false
  else true

/-- Longest digit prefix of a character list, with the remainder. -/
def takeDigits : List Char → List Char × List Char
  | [] => ([], [])
  | c :: cs =>
    if c.isDigit then
      let rest := takeDigits cs
      (c :: rest.1, rest.2)
    else ([], c :: cs)

/-- The numeric token found by the regex of parseLine (line 249): an
optional minus sign, an integer digit run, and an optional fractional
digit run after a dot or comma (the decimal comma the code normalizes). -/
structure NumToken where
  negative : Bool
  intDigits : List Char
  fracDigits : List Char
deriving DecidableEq, Repr

/-- Leftmost match of the numeric-token regex: scan to the first digit,
include an immediately preceding minus sign, take the maximal integer
digit run, then a fractional run if a dot or comma with at least one
digit follows. -/
def findNumericToken (prev : Option Char) : List Char → Option NumToken
  | [] => none
  | c :: cs =>
    if c.isDigit then
      let ints := takeDigits (c :: cs)
      let neg := prev == some '-'
      match ints.2 with
      | sep :: r2 =>
        if sep == '.' || sep == ',' then
          let fracs := takeDigits r2
          if fracs.1.isEmpty then some ⟨neg, ints.1, []⟩
          else some ⟨neg, ints.1, fracs.1⟩
        else some ⟨neg, ints.1, []⟩
      | [] => some ⟨neg, ints.1, []⟩
    else findNumericToken (some c) cs

/-- Decimal value of a digit run. -/
def digitsToNat (ds : List Char) : ℕ :=
  ds.foldl (fun acc c => acc * 10 + (c.toNat - 48)) 0

/-- parseFloat applied to the matched token (decimal comma already
normalized to a point by the token structure). -/
def tokenValue (t : NumToken) : ℚ :=
  let magnitude : ℚ :=
    (digitsToNat t.intDigits : ℚ) +
      (digitsToNat t.fracDigits : ℚ) / (10 : ℚ) ^ t.fracDigits.length
  if t.negative then -magnitude else magnitude

/-- JavaScript Math.round: round half toward positive infinity. -/
def jsRound (x : ℚ) : ℤ := ⌊x + 1/2⌋

/-- SerialReading, from serialClient.ts (timestamp omitted). -/
structure SerialReading where
  weight : ℚ
  unit : String
  stable : Bool
deriving DecidableEq, Repr

/-- The body of SerialClient.parseLine on the trimmed character list:
empty or numberless lines yield none; the weight is the first numeric
token, converted from grams when the unit regex detects g, and rounded to
three decimals. The NaN guard of the code is unreachable because the
token always holds digits. -/
def parseChars (cs : List Char) : Option SerialReading :=
  if cs.isEmpty then none
  else
    match findNumericToken none cs with
    | none => none
    | some tok =>
      let weight := tokenValue tok
      let unit := if containsCI cs "kg" then "kg"
                  else if hasCharThenBoundary 'g' cs then "g"
                  else "kg"
      let valueKg := if unit == "g" then weight / 1000 else weight
      some { weight := (jsRound (valueKg * 1000) : ℚ) / 1000
             unit := "kg"
             stable := stabilityOf cs }

/-- SerialClient.parseLine (serialClient.ts lines 244-271): trim the raw
line, then parse. -/
def parseLine (line : String) : Option SerialReading :=
  parseChars (trimChars line.toList)

/-- The weight emitted by SerialClient.simulateWeightReading (serialClient.ts
lines 273-287), as a function of the Math.random sample r in [0, 1):
base 12.0 kg plus (r - 0.5) * 0.1, rounded to three decimals. -/
def simulateWeightReadingWeight (r : ℚ) : ℚ :=
  let baseWeight : ℚ := 12
  let variation := (r - 1/2) * (1/10)
  (jsRound ((baseWeight + variation) * 1000) : ℚ) / 1000

/-! ## In-memory store and route handlers (routes.ts) -/

/-- TareConfiguration, from shared/schema.ts (createdAt omitted). -/
structure TareConfiguration where
  id : String
  date : String
  tareWeight : ℚ
deriving DecidableEq, Repr

/-- A lorry queue entry, from shared/schema.ts (createdAt omitted). The
status column is free text defaulting to waiting; totalBags mirrors the
object spread of MemStorage, where the field may be absent. -/
structure LorryQueueEntry where
  id : String
  lorryNumber : String
  line : String
  lineManager : String
  phone : Option String
  tareConfigId : Option String
  status : String
  totalBags : Option ℤ
deriving DecidableEq, Repr

/-- Weighment, from shared/schema.ts (createdAt omitted). -/
structure Weighment where
  id : String
  lorryId : String
  tagId : String
  plcWeight : Option ℚ
  serialWeight : Option ℚ
  finalWeight : ℚ
  tareWeight : ℚ
  netWeight : ℚ
  weightSource : WeightSrc
  toleranceStatus : ToleranceStatus
  weightDifference : Option ℚ
deriving DecidableEq, Repr

/-- InsertWeighment: the insert schema omits only id and createdAt. -/
structure InsertWeighment where
  lorryId : String
  tagId : String
  plcWeight : Option ℚ
  serialWeight : Option ℚ
  finalWeight : ℚ
  tareWeight : ℚ
  netWeight : ℚ
  weightSource : WeightSrc
  toleranceStatus : ToleranceStatus
  weightDifference : Option ℚ
deriving DecidableEq, Repr

/-- InsertLorryQueue: the insert schema omits id and createdAt; status and
totalBags have column defaults, so they may be absent. -/
structure InsertLorryQueue where
  lorryNumber : String
  line : String
  lineManager : String
  phone : Option String
  tareConfigId : Option String
  status : Option String
  totalBags : Option ℤ
deriving DecidableEq, Repr

/-- LorryWithTareConfig: a queue entry joined with its optional tare
configuration (weighmentCount omitted). -/
structure LorryWithTareConfig where
  lorry : LorryQueueEntry
  tareConfig : Option TareConfiguration
deriving DecidableEq, Repr

/-- The MemStorage maps of routes.ts lines 1107-1123, modelled as lists in
insertion order with randomUUID keys supplied by the caller (users,
settings and the activity log play no role in the claims and are
omitted). -/
structure MemStorage where
  tareConfigs : List TareConfiguration
  lorryQueue : List LorryQueueEntry
  weighments : List Weighment
deriving DecidableEq, Repr

/-- JavaScript string-or: an absent or empty string falls back to the
default. -/
def jsStrOr (o : Option String) (d : String) : String :=
  match o with
  | none => d
  | some x => if x == "" then d else x

/-- MemStorage.createTareConfig (routes.ts lines 1150-1159). -/
def MemStorage.createTareConfig (s : MemStorage) (id : String)
    (date : String) (tareWeight : ℚ) : TareConfiguration × MemStorage :=
  let config : TareConfiguration := ⟨id, date, tareWeight⟩
  (config, { s with tareConfigs := s.tareConfigs ++ [config] })

/-- MemStorage.createLorry (routes.ts lines 1209-1219): status defaults to
waiting via JavaScript string-or. -/
def MemStorage.createLorry (s : MemStorage) (id : String)
    (lorry : InsertLorryQueue) : LorryQueueEntry × MemStorage :=
  let newLorry : LorryQueueEntry :=
    { id := id
      lorryNumber := lorry.lorryNumber
      line := lorry.line
      lineManager := lorry.lineManager
      phone := lorry.phone
      tareConfigId := lorry.tareConfigId
      status := jsStrOr lorry.status "waiting"
      totalBags := lorry.totalBags }
  (newLorry, { s with lorryQueue := s.lorryQueue ++ [newLorry] })

/-- MemStorage.updateLorryStatus (routes.ts lines 1221-1232): looks up the
entry by id, then overwrites the status (and totalBags when supplied)
unconditionally. Returns undefined only for an unknown id. -/
def MemStorage.updateLorryStatus (s : MemStorage) (id status : String)
    (totalBags : Option ℤ) : Option LorryQueueEntry × MemStorage :=
  match s.lorryQueue.find? (fun l => l.id == id) with
  | none => (none, s)
  | some existing =>
    let updated : LorryQueueEntry :=
      { existing with
        status := status
        totalBags := match totalBags with
                     | some b => some b
                     | none => existing.totalBags }
    (some updated,
     { s with lorryQueue :=
        s.lorryQueue.map (fun l => if l.id == id then updated else l) })

/-- MemStorage.removeLorryFromQueue (routes.ts lines 1234-1236). -/
def MemStorage.removeLorryFromQueue (s : MemStorage) (id : String) :
    Bool × MemStorage :=
  (s.lorryQueue.any (fun l => l.id == id),
   { s with lorryQueue := s.lorryQueue.filter (fun l => l.id != id) })

/-- MemStorage.getLorryById (routes.ts lines 1191-1207), without the
weighment count. -/
def MemStorage.getLorryById (s : MemStorage) (id : String) :
    Option LorryWithTareConfig :=
  (s.lorryQueue.find? (fun l => l.id == id)).map fun lorry =>
    { lorry := lorry
      tareConfig := lorry.tareConfigId.bind fun tid =>
        s.tareConfigs.find? (fun c => c.id == tid) }

/-- MemStorage.createWeighment (routes.ts lines 1257-1269): copies the
insert payload verbatim under a fresh id; nothing is recomputed. -/
def MemStorage.createWeighment (s : MemStorage) (id : String)
    (weighment : InsertWeighment) : Weighment × MemStorage :=
  let newWeighment : Weighment :=
    { id := id
      lorryId := weighment.lorryId
      tagId := weighment.tagId
      plcWeight := weighment.plcWeight
      serialWeight := weighment.serialWeight
      finalWeight := weighment.finalWeight
      tareWeight := weighment.tareWeight
      netWeight := weighment.netWeight
      weightSource := weighment.weightSource
      toleranceStatus := weighment.toleranceStatus
      weightDifference := weighment.weightDifference }
  (newWeighment, { s with weighments := s.weighments ++ [newWeighment] })

/-- The number of active lorries, as computed by GET /api/stats
(routes.ts line 232). -/
def MemStorage.activeLorriesCount (s : MemStorage) : ℕ :=
  (s.lorryQueue.filter (fun l => l.status == "active")).length

/-- APIClient.syncWeighment retry loop (apiClient.ts lines 86-114):
attempts indexed from 0 run while attempt < retryAttempts, stopping at the
first success; exhausting all attempts raises, which the surrounding catch
(lines 116-125) converts to a failure response. The result is whether the
sync succeeded. -/
def syncWeighmentSucceeds (retryAttempts : ℕ)
    (attemptSucceeds : ℕ → Bool) : Bool :=
  (List.range retryAttempts).any attemptSucceeds

/-- The POST /api/weighments handler (routes.ts lines 179-225): persist the
weighment, then attempt the external sync inside try/catch whose outcome
is only logged, then respond with the created record. Activity logging
and socket broadcasting carry no store state and are elided. -/
def postWeighment (s : MemStorage) (newId : String) (data : InsertWeighment)
    (retryAttempts : ℕ) (attemptSucceeds : ℕ → Bool) :
    Weighment × MemStorage :=
  let created := s.createWeighment newId data
  let _syncResult : Option Bool :=
    match created.2.getLorryById created.1.lorryId with
    | some _ => some (syncWeighmentSucceeds retryAttempts attemptSucceeds)
    | none => none
  (created.1, created.2)

/-- The tare weight the client applies (weighing-interface.tsx line 136):
the active lorry tare configuration weight, or 0 when absent. -/
def tareWeightOf (activeLorry : LorryWithTareConfig) : ℚ :=
  match activeLorry.tareConfig with
  | some config => config.tareWeight
  | none => 0

/-- saveWeighmentMutation (weighing-interface.tsx lines 130-152): the
request body posted to /api/weighments, with netWeight computed as the
validation final weight minus the active lorry tare. -/
def clientSaveWeighment (activeLorry : LorryWithTareConfig)
    (currentTag : String) (currentWeights : WeightReading)
    (validation : ToleranceCheck) : InsertWeighment :=
  { lorryId := activeLorry.lorry.id
    tagId := currentTag
    plcWeight := currentWeights.plcWeight
    serialWeight := currentWeights.serialWeight
    finalWeight := validation.finalWeight
    tareWeight := tareWeightOf activeLorry
    netWeight := validation.finalWeight - tareWeightOf activeLorry
    weightSource := validation.weightSource
    toleranceStatus := validation.status
    weightDifference := some validation.difference }

/-- Every stored weighment records a net weight equal to its final weight
minus its captured tare weight. -/
def netInvariant (s : MemStorage) : Prop :=
  ∀ w ∈ s.weighments, w.netWeight = w.finalWeight - w.tareWeight

/-- Replace an exactly-zero optional sample by an absent one. -/
def dropZero : Option ℚ → Option ℚ
  | none => none
  | some x => if x = 0 then none else some x

/-- The transformation comparing a zero-valued sample with a missing one:
both fields of the reading have exact zeros replaced by undefined. -/
def zeroAsAbsent (r : WeightReading) : WeightReading :=
  ⟨dropZero r.plcWeight, dropZero r.serialWeight⟩

/-! Concrete scenario data used by counterexamples and witnesses. -/

/-- A queue insert for a first demonstration lorry. -/
def demoLorryA : InsertLorryQueue :=
  { lorryNumber := "WP-1001", line := "Line 1", lineManager := "Manager A"
    phone := none, tareConfigId := none, status := none, totalBags := none }

/-- A queue insert for a second demonstration lorry. -/
def demoLorryB : InsertLorryQueue :=
  { lorryNumber := "WP-1002", line := "Line 2", lineManager := "Manager B"
    phone := none, tareConfigId := none, status := none, totalBags := none }

/-- A store holding the two demonstration lorries, both waiting, and no
tare configuration for any operating day. -/
def demoStore : MemStorage :=
  (((MemStorage.mk [] [] []).createLorry "lorryA" demoLorryA).2.createLorry
    "lorryB" demoLorryB).2

/-- The demonstration store after activating the first lorry. -/
def demoAfterFirstActivate : Option LorryQueueEntry × MemStorage :=
  demoStore.updateLorryStatus "lorryA" "active" none

/-- The demonstration store after then activating the second lorry while
the first is still active. -/
def demoAfterSecondActivate : Option LorryQueueEntry × MemStorage :=
  demoAfterFirstActivate.2.updateLorryStatus "lorryB" "active" none

/-- A validator configuration with the block action. -/
def blockActionConfig : ValidationConfig :=
  { toleranceRange := 1/20, weightSourcePriority := .plc
    validationAction := .block }

/-- The tolerance check produced for plc 13 kg against serial 12.2 kg under
0.05 kg tolerance: difference 0.8 kg, status error. -/
def errorToleranceCheck : ToleranceCheck :=
  { difference := 4/5, tolerance := 1/20, status := .error
    finalWeight := 13, weightSource := .plc }

/-- The corresponding capture request body with status error. -/
def errorInsertWeighment : InsertWeighment :=
  { lorryId := "lorryA", tagId := "TAG-001", plcWeight := some 13
    serialWeight := some (61/5), finalWeight := 13, tareWeight := 2
    netWeight := 11, weightSource := .plc, toleranceStatus := .error
    weightDifference := some (4/5) }

/-! ## Shared lemmas -/

/-- Neither branch of updateLorryStatus touches the weighments map. -/
theorem updateLorryStatus_weighments (s : MemStorage) (id status : String)
    (totalBags : Option ℤ) :
    ((s.updateLorryStatus id status totalBags).2).weighments = s.weighments := by
  unfold MemStorage.updateLorryStatus
  cases s.lorryQueue.find? (fun l => l.id == id) <;> rfl

/-- Removing a lorry from the queue does not touch the weighments map. -/
theorem removeLorryFromQueue_weighments (s : MemStorage) (id : String) :
    ((s.removeLorryFromQueue id).2).weighments = s.weighments := rfl

/-- Evaluation of parseChars when a numeric token is found and the unit
resolves to kilograms (the kg regex matches, or neither unit regex does). -/
theorem parseChars_kg (cs : List Char) (tok : NumToken)
    (hne : cs.isEmpty = false)
    (htok : findNumericToken none cs = some tok)
    (hu : containsCI cs "kg" = true ∨
      (containsCI cs "kg" = false ∧ hasCharThenBoundary 'g' cs = false)) :
    parseChars cs =
      some { weight := (jsRound (tokenValue tok * 1000) : ℚ) / 1000
             unit := "kg", stable := stabilityOf cs } := by
  rcases hu with h | ⟨h1, h2⟩
  · simp [parseChars, hne, htok, h]
  · simp [parseChars, hne, htok, h1, h2]

/-- Evaluation of parseChars when a numeric token is found and the unit
resolves to grams: the weight is divided by 1000. -/
theorem parseChars_g (cs : List Char) (tok : NumToken)
    (hne : cs.isEmpty = false)
    (htok : findNumericToken none cs = some tok)
    (hkg : containsCI cs "kg" = false)
    (hg : hasCharThenBoundary 'g' cs = true) :
    parseChars cs =
      some { weight := (jsRound (tokenValue tok / 1000 * 1000) : ℚ) / 1000
             unit := "kg", stable := stabilityOf cs } := by
  simp [parseChars, hne, htok, hkg, hg]

/-! ## Claim theorems -/

/-- C2, counterexample: the server-side tolerance-check computation does
throw. WeightValidator.validateWeights applied to a reading with neither
sample present raises the error No weight readings available instead of
returning the sentinel result the claim describes. -/
theorem validateWeights_noSample_throws_cex :
    validateWeights weightValidatorDefaultConfig
        { plcWeight := none, serialWeight := none } =
      Except.error "No weight readings available" := rfl

/-- C2, amended: when neither sample is present, the client-side
tolerance-check computation calculateValidation returns the sentinel
result with difference 0, status error, finalWeight 0 and weightSource
plc without throwing, while the server-side
WeightValidator.validateWeights instead throws the exception No weight
readings available for every configuration. -/
theorem noSample_sentinel_client_throw_server :
    calculateValidation { plcWeight := none, serialWeight := none } =
      { difference := 0, tolerance := 1/20, status := .error
        finalWeight := 0, weightSource := .plc } ∧
    ∀ config : ValidationConfig,
      validateWeights config { plcWeight := none, serialWeight := none } =
        Except.error "No weight readings available" :=
  ⟨rfl, fun _ => rfl⟩

/-- C3: with both samples present (nonzero, hence truthy), the computed
difference is the absolute value of plc minus serial weight, the status is
good when the difference is at most the tolerance, warning when it is
above the tolerance but at most twice it, and error beyond; with the
default 0.05 tolerance, differences 0.03, 0.08 and 0.20 yield good,
warning and error respectively. -/
theorem validateWeights_both_sources (config : ValidationConfig) (p s : ℚ)
    (hp : p ≠ 0) (hs : s ≠ 0) :
    (validateWeights config { plcWeight := some p, serialWeight := some s } =
      Except.ok { difference := |p - s|
                  tolerance := config.toleranceRange
                  status := getToleranceStatus config |p - s|
                  finalWeight := calculateFinalWeight config p s
                  weightSource := getWeightSource config }) ∧
    (|p - s| ≤ config.toleranceRange →
      getToleranceStatus config |p - s| = .good) ∧
    (config.toleranceRange < |p - s| →
      |p - s| ≤ config.toleranceRange * 2 →
      getToleranceStatus config |p - s| = .warning) ∧
    (config.toleranceRange * 2 < |p - s| →
      getToleranceStatus config |p - s| = .error) ∧
    validateWeights weightValidatorDefaultConfig
        { plcWeight := some (1203/100), serialWeight := some 12 } =
      Except.ok { difference := 3/100, tolerance := 1/20, status := .good
                  finalWeight := 1203/100, weightSource := .plc } ∧
    validateWeights weightValidatorDefaultConfig
        { plcWeight := some (1208/100), serialWeight := some 12 } =
      Except.ok { difference := 8/100, tolerance := 1/20, status := .warning
                  finalWeight := 1208/100, weightSource := .plc } ∧
    validateWeights weightValidatorDefaultConfig
        { plcWeight := some (122/10), serialWeight := some 12 } =
      Except.ok { difference := 2/10, tolerance := 1/20, status := .error
                  finalWeight := 122/10, weightSource := .plc } := by
  have habs3 : |(3/100 : ℚ)| = 3/100 := abs_of_pos (by norm_num)
  have habs8 : |(2/25 : ℚ)| = 2/25 := abs_of_pos (by norm_num)
  have habs20 : |(1/5 : ℚ)| = 1/5 := abs_of_pos (by norm_num)
  refine ⟨?_, ?_, ?_, ?_,
    by norm_num [validateWeights, truthy, getToleranceStatus,
      calculateFinalWeight, getWeightSource, weightValidatorDefaultConfig,
      habs3],
    by norm_num [validateWeights, truthy, getToleranceStatus,
      calculateFinalWeight, getWeightSource, weightValidatorDefaultConfig,
      habs8],
    by norm_num [validateWeights, truthy, getToleranceStatus,
      calculateFinalWeight, getWeightSource, weightValidatorDefaultConfig,
      habs20]⟩
  · simp [validateWeights, truthy, hp, hs]
  · intro h
    unfold getToleranceStatus
    rw [if_pos h]
  · intro h1 h2
    unfold getToleranceStatus
    rw [if_neg (not_le.mpr h1), if_pos h2]
  · intro h
    have h0 : (0 : ℚ) ≤ |p - s| := abs_nonneg _
    have hn1 : ¬ |p - s| ≤ config.toleranceRange := by
      intro hle
      linarith
    have hn2 : ¬ |p - s| ≤ config.toleranceRange * 2 := by
      intro hle
      linarith
    unfold getToleranceStatus
    rw [if_neg hn1, if_neg hn2]

/-- Witness for C3 at plc 12.03 kg, serial 12 kg, default configuration. -/
theorem validateWeights_both_sources_witness :
    getToleranceStatus weightValidatorDefaultConfig
        |(1203/100 : ℚ) - 12| = ToleranceStatus.good := by
  have habs : |(1203/100 : ℚ) - 12| = 3/100 := by
    rw [show (1203/100 : ℚ) - 12 = 3/100 by norm_num]
    exact abs_of_pos (by norm_num)
  exact (validateWeights_both_sources weightValidatorDefaultConfig (1203/100)
    12 (by norm_num) (by norm_num)).2.1
    (by rw [habs]; norm_num [weightValidatorDefaultConfig])

/-- C6: with exactly one sample present, the result has status good, that
sample's value as final weight, that source as weight source, and
difference 0, for every configuration (priority and action unused on this
path). -/
theorem validateWeights_single_source (config : ValidationConfig) (v : ℚ)
    (hv : v ≠ 0) :
    validateWeights config { plcWeight := some v, serialWeight := none } =
      Except.ok { difference := 0, tolerance := config.toleranceRange
                  status := .good, finalWeight := v, weightSource := .plc } ∧
    validateWeights config { plcWeight := none, serialWeight := some v } =
      Except.ok { difference := 0, tolerance := config.toleranceRange
                  status := .good, finalWeight := v
                  weightSource := .serial } := by
  constructor <;> simp [validateWeights, truthy, hv]

/-- Witness for C6 at 12 kg under the default configuration. -/
theorem validateWeights_single_source_witness :
    validateWeights weightValidatorDefaultConfig
        { plcWeight := some 12, serialWeight := none } =
      Except.ok { difference := 0, tolerance := 1/20, status := .good
                  finalWeight := 12, weightSource := .plc } :=
  (validateWeights_single_source weightValidatorDefaultConfig 12
    (by norm_num)).1

/-- C10: the tolerance check treats an exactly-zero sample as absent:
replacing zero-valued fields by undefined never changes the result, a
reading with plc 0 and a nonzero serial weight takes the single-source
serial branch with status good, and a reading with both weights 0 is
handled by the no-sample branch (the throwing one) although both samples
were supplied. -/
theorem validateWeights_zero_as_absent (config : ValidationConfig) (s : ℚ)
    (hs : s ≠ 0) :
    (∀ r : WeightReading,
      validateWeights config (zeroAsAbsent r) = validateWeights config r) ∧
    validateWeights config { plcWeight := some 0, serialWeight := some s } =
      Except.ok { difference := 0, tolerance := config.toleranceRange
                  status := .good, finalWeight := s
                  weightSource := .serial } ∧
    validateWeights config { plcWeight := some 0, serialWeight := some 0 } =
      Except.error "No weight readings available" := by
  refine ⟨?_, ?_, ?_⟩
  · rintro ⟨p, q⟩
    cases p with
    | none =>
      cases q with
      | none => rfl
      | some y =>
        by_cases hy : y = 0 <;>
          simp [zeroAsAbsent, dropZero, validateWeights, truthy, hy]
    | some x =>
      cases q with
      | none =>
        by_cases hx : x = 0 <;>
          simp [zeroAsAbsent, dropZero, validateWeights, truthy, hx]
      | some y =>
        by_cases hx : x = 0 <;> by_cases hy : y = 0 <;>
          simp [zeroAsAbsent, dropZero, validateWeights, truthy, hx, hy]
  · simp [validateWeights, truthy, hs]
  · rfl

/-- Witness for C10 at serial 12 kg under the default configuration. -/
theorem validateWeights_zero_as_absent_witness :
    validateWeights weightValidatorDefaultConfig
        { plcWeight := some 0, serialWeight := some 12 } =
      Except.ok { difference := 0, tolerance := 1/20, status := .good
                  finalWeight := 12, weightSource := .serial } :=
  (validateWeights_zero_as_absent weightValidatorDefaultConfig 12
    (by norm_num)).2.1

/-- C9: every weight emitted by the scale simulator, as a function of the
random sample r in [0, 1), lies within 11.95 kg and 12.05 kg (baseline
12.0 kg, variance bound 0.05 kg, rounded to three decimals). -/
theorem simulateWeightReading_in_bounds (r : ℚ) (h0 : 0 ≤ r) (h1 : r < 1) :
    1195/100 ≤ simulateWeightReadingWeight r ∧
      simulateWeightReadingWeight r ≤ 1205/100 := by
  have hform : simulateWeightReadingWeight r =
      ((⌊(11950 : ℚ) + 100 * r + 1/2⌋ : ℤ) : ℚ) / 1000 := by
    show ((⌊((12 : ℚ) + (r - 1/2) * (1/10)) * 1000 + 1/2⌋ : ℤ) : ℚ) / 1000 = _
    rw [show ((12 : ℚ) + (r - 1/2) * (1/10)) * 1000 + 1/2
          = (11950 : ℚ) + 100 * r + 1/2 from by ring]
  have hlo : (11950 : ℤ) ≤ ⌊(11950 : ℚ) + 100 * r + 1/2⌋ := by
    apply Int.le_floor.mpr
    push_cast
    linarith
  have hhi : ⌊(11950 : ℚ) + 100 * r + 1/2⌋ < 12051 := by
    apply Int.floor_lt.mpr
    push_cast
    linarith
  have hhi2 : ⌊(11950 : ℚ) + 100 * r + 1/2⌋ ≤ 12050 := by omega
  rw [hform]
  constructor
  · have hc : ((11950 : ℤ) : ℚ) ≤ (⌊(11950 : ℚ) + 100 * r + 1/2⌋ : ℤ) :=
      Int.cast_le.mpr hlo
    push_cast at hc
    linarith
  · have hc : ((⌊(11950 : ℚ) + 100 * r + 1/2⌋ : ℤ) : ℚ) ≤ ((12050 : ℤ) : ℚ) :=
      Int.cast_le.mpr hhi2
    push_cast at hc
    linarith

/-- Witness for C9 at the random sample 0. -/
theorem simulateWeightReading_in_bounds_witness :
    1195/100 ≤ simulateWeightReadingWeight 0 :=
  (simulateWeightReading_in_bounds 0 le_rfl (by norm_num)).1

/-- C1, counterexample: updateLorryStatus enforces neither the
single-active invariant nor the tare-configuration guard. Starting from
an empty store with no tare configuration for any day, activating lorryA
and then lorryB both succeed: the second activation is applied and
returned (not rejected), leaving two sessions active at once. -/
theorem updateLorryStatus_two_active_cex :
    demoAfterFirstActivate.2.activeLorriesCount = 1 ∧
    demoAfterSecondActivate.1.map LorryQueueEntry.status = some "active" ∧
    demoAfterSecondActivate.2.activeLorriesCount = 2 ∧
    demoAfterSecondActivate.2.tareConfigs = [] := by
  decide

/-- C1, amended: updateLorryStatus applies any requested status change
unconditionally whenever the id exists, returning the updated entry; it
returns undefined only for an unknown id. No single-active check and no
tare-configuration check exist on this path, so multiple sessions can be
active simultaneously. -/
theorem updateLorryStatus_unconditional (s : MemStorage)
    (id status : String) (totalBags : Option ℤ) :
    (s.lorryQueue.find? (fun l => l.id == id) = none →
      s.updateLorryStatus id status totalBags = (none, s)) ∧
    (∀ e, s.lorryQueue.find? (fun l => l.id == id) = some e →
      (s.updateLorryStatus id status totalBags).1 =
        some { e with
               status := status
               totalBags := match totalBags with
                            | some b => some b
                            | none => e.totalBags }) := by
  constructor
  · intro h
    simp [MemStorage.updateLorryStatus, h]
  · intro e h
    simp [MemStorage.updateLorryStatus, h]

/-- Witness for C1: activating the waiting lorryB in the demonstration
store yields the updated active entry. -/
theorem updateLorryStatus_unconditional_witness :
    (demoStore.updateLorryStatus "lorryB" "active" none).1 =
      some { id := "lorryB", lorryNumber := "WP-1002", line := "Line 2"
             lineManager := "Manager B", phone := none, tareConfigId := none
             status := "active", totalBags := none } :=
  (updateLorryStatus_unconditional demoStore "lorryB" "active" none).2
    { id := "lorryB", lorryNumber := "WP-1002", line := "Line 2"
      lineManager := "Manager B", phone := none, tareConfigId := none
      status := "waiting", totalBags := none } (by decide)

/-- C4, counterexample: an error-status capture is persisted even though
the active policy is block. The validator flags the check (its
shouldBlockWeighment returns true), but the save path never consults it:
posting the capture to /api/weighments stores the record with status
error. -/
theorem blockPolicy_error_capture_persisted_cex :
    validateWeights blockActionConfig
        { plcWeight := some 13, serialWeight := some (61/5) } =
      Except.ok errorToleranceCheck ∧
    shouldBlockWeighment blockActionConfig errorToleranceCheck = true ∧
    ((postWeighment ⟨[], [], []⟩ "w1" errorInsertWeighment 3
        (fun _ => false)).2.weighments.map Weighment.toleranceStatus) =
      [ToleranceStatus.error] := by
  refine ⟨?_, rfl, rfl⟩
  have habs : |(4/5 : ℚ)| = 4/5 := abs_of_pos (by norm_num)
  norm_num [validateWeights, truthy, getToleranceStatus,
    calculateFinalWeight, getWeightSource, blockActionConfig,
    errorToleranceCheck, habs]

/-- C4, amended: whether a capture is stored does not depend on the
configured validation action. shouldBlockWeighment computes exactly
(action is block and status is error) but is never invoked by the save
path: the POST /api/weighments handler persists every submitted capture
under every policy, and the client save button is disabled for an
error-status validation under every policy, including log. -/
theorem weighmentPersistence_ignores_validationAction :
    (∀ (config : ValidationConfig) (tc : ToleranceCheck),
      shouldBlockWeighment config tc = true ↔
        (config.validationAction = ValidationAction.block ∧
          tc.status = ToleranceStatus.error)) ∧
    (∀ (s : MemStorage) (newId : String) (data : InsertWeighment)
        (n : ℕ) (att : ℕ → Bool),
      (postWeighment s newId data n att).2.weighments =
        s.weighments ++ [(postWeighment s newId data n att).1]) ∧
    (∀ (isPending : Bool) (tag : String),
      saveWeighmentDisabled isPending tag ToleranceStatus.error = true) := by
  refine ⟨?_, ?_, ?_⟩
  · intro config tc
    constructor
    · intro h
      by_cases hb : config.validationAction = ValidationAction.block
      · refine ⟨hb, ?_⟩
        simpa [shouldBlockWeighment, hb] using h
      · simp [shouldBlockWeighment, hb] at h
    · rintro ⟨hb, hstat⟩
      simp [shouldBlockWeighment, hb, hstat]
  · intro s newId data n att
    rfl
  · intro isPending tag
    simp [saveWeighmentDisabled]

/-- C5: a capture created by the client save flow records
netWeight = finalWeight minus the active session's tare weight at capture
time (the tare also being stored on the record); the store invariant that
every weighment satisfies netWeight = finalWeight - tareWeight is
preserved by the save, and no other store operation modifies existing
weighment records. -/
theorem clientSave_netWeight (s : MemStorage) (newId currentTag : String)
    (activeLorry : LorryWithTareConfig) (currentWeights : WeightReading)
    (validation : ToleranceCheck) (n : ℕ) (att : ℕ → Bool)
    (hinv : netInvariant s) :
    (postWeighment s newId
        (clientSaveWeighment activeLorry currentTag currentWeights
          validation) n att).1.netWeight =
      validation.finalWeight - tareWeightOf activeLorry ∧
    (postWeighment s newId
        (clientSaveWeighment activeLorry currentTag currentWeights
          validation) n att).1.tareWeight = tareWeightOf activeLorry ∧
    netInvariant
      (postWeighment s newId
        (clientSaveWeighment activeLorry currentTag currentWeights
          validation) n att).2 ∧
    (∀ (id status : String) (totalBags : Option ℤ),
      (((postWeighment s newId
          (clientSaveWeighment activeLorry currentTag currentWeights
            validation) n att).2.updateLorryStatus id status
          totalBags).2).weighments =
        (postWeighment s newId
          (clientSaveWeighment activeLorry currentTag currentWeights
            validation) n att).2.weighments) ∧
    (∀ id : String,
      (((postWeighment s newId
          (clientSaveWeighment activeLorry currentTag currentWeights
            validation) n att).2.removeLorryFromQueue id).2).weighments =
        (postWeighment s newId
          (clientSaveWeighment activeLorry currentTag currentWeights
            validation) n att).2.weighments) := by
  refine ⟨rfl, rfl, ?_,
    fun id status totalBags => updateLorryStatus_weighments _ id status totalBags,
    fun id => removeLorryFromQueue_weighments _ id⟩
  intro w hw
  simp only [postWeighment, MemStorage.createWeighment, List.mem_append,
    List.mem_singleton] at hw
  rcases hw with h | rfl
  · exact hinv w h
  · rfl

/-- Witness for C5: saving one capture into an empty store with tare 2 kg
and final weight 13 kg yields net weight 11 kg. -/
theorem clientSave_netWeight_witness :
    (postWeighment ⟨[], [], []⟩ "w1"
        (clientSaveWeighment
          ⟨{ id := "lorryA", lorryNumber := "WP-1001", line := "Line 1"
             lineManager := "Manager A", phone := none
             tareConfigId := some "tare1", status := "active"
             totalBags := none },
           some { id := "tare1", date := "2026-10-11", tareWeight := 2 }⟩
          "TAG-001" { plcWeight := some 13, serialWeight := some 12 }
          { difference := 1, tolerance := 1/20, status := .good
            finalWeight := 13, weightSource := .plc }) 3
        (fun _ => false)).1.netWeight = 13 - 2 :=
  (clientSave_netWeight ⟨[], [], []⟩ "w1" "TAG-001"
    ⟨{ id := "lorryA", lorryNumber := "WP-1001", line := "Line 1"
       lineManager := "Manager A", phone := none
       tareConfigId := some "tare1", status := "active", totalBags := none },
     some { id := "tare1", date := "2026-10-11", tareWeight := 2 }⟩
    { plcWeight := some 13, serialWeight := some 12 }
    { difference := 1, tolerance := 1/20, status := .good
      finalWeight := 13, weightSource := .plc } 3 (fun _ => false)
    (fun w hw => absurd hw (List.not_mem_nil w))).1

/-- C8: the local outcome of saving a capture is independent of the
external sync result: for any two sync behaviors the handler produces the
same created record and the same store, both equal to what createWeighment
alone produces; and a sync whose every attempt fails (retries exhausted)
reports failure without affecting that outcome. -/
theorem syncFailure_leaves_local_state (s : MemStorage) (newId : String)
    (data : InsertWeighment) (n : ℕ) (att att2 : ℕ → Bool) :
    postWeighment s newId data n att = postWeighment s newId data n att2 ∧
    (postWeighment s newId data n att).1 =
      (s.createWeighment newId data).1 ∧
    (postWeighment s newId data n att).2 =
      (s.createWeighment newId data).2 ∧
    syncWeighmentSucceeds n (fun _ => false) = false := by
  refine ⟨rfl, rfl, rfl, ?_⟩
  simp [syncWeighmentSucceeds]

/-- C7, counterexample: the line 12.3 unstable carries the unstable marker
(the word unstable), yet parseLine reports stable = true, because the
stable-marker regex is tested first and matches the substring st inside
unstable. -/
theorem parseLine_unstable_marker_cex :
    parseLine "12.3 unstable" =
      some { weight := 123/10, unit := "kg", stable := true } ∧
    unstableMarker (trimChars "12.3 unstable".toList) = true := by
  constructor
  · show parseChars (trimChars "12.3 unstable".toList) = _
    rw [show trimChars "12.3 unstable".toList = "12.3 unstable".toList from
      by decide]
    rw [parseChars_kg "12.3 unstable".toList ⟨false, ['1','2'], ['3']⟩
      (by decide) (by decide) (Or.inr ⟨by decide, by decide⟩)]
    rw [show stabilityOf "12.3 unstable".toList = true from by decide]
    have h1 : digitsToNat ['1','2'] = 12 := by decide
    have h2 : digitsToNat ['3'] = 3 := by decide
    norm_num [tokenValue, jsRound, h1, h2]
  · decide

/-- C7, amended: parsing extracts the first numeric token (decimal comma
accepted), converts a g-unit value to kilograms by dividing by 1000, and
drops numberless lines by returning none; the stability markers are
checked in order, so a stable marker (substrings ST or OK or stable,
case-insensitive, or a standalone S) always yields stable = true even
when an unstable marker is also present — in particular the word unstable
contains st and yields stable = true — while US, unstable or a standalone
U yields stable = false only when no stable marker matches, and absence
of all markers yields stable = true. -/
theorem parseLine_tolerant_grammar :
    (∀ line : String,
      findNumericToken none (trimChars line.toList) = none →
        parseLine line = none) ∧
    (∀ cs, stableMarker cs = true → stabilityOf cs = true) ∧
    (∀ cs, stableMarker cs = false → unstableMarker cs = true →
      stabilityOf cs = false) ∧
    (∀ cs, stableMarker cs = false → unstableMarker cs = false →
      stabilityOf cs = true) ∧
    stableMarker (trimChars "12.3 unstable".toList) = true ∧
    parseLine "  12,345 kg ST " =
      some { weight := 12345/1000, unit := "kg", stable := true } ∧
    parseLine "1500 g US" =
      some { weight := 3/2, unit := "kg", stable := false } ∧
    parseLine "ST,GS,  12.345 kg" =
      some { weight := 12345/1000, unit := "kg", stable := true } ∧
    parseLine "no numeric token" = none := by
  refine ⟨?_, ?_, ?_, ?_, by decide, ?_, ?_, ?_, by decide⟩
  · intro line h
    show parseChars (trimChars line.toList) = none
    revert h
    generalize trimChars line.toList = cs
    intro h
    by_cases hempty : cs.isEmpty = true
    · simp [parseChars, hempty]
    · simp [parseChars, hempty, h]
  · intro cs h
    simp [stabilityOf, h]
  · intro cs h1 h2
    simp [stabilityOf, h1, h2]
  · intro cs h1 h2
    simp [stabilityOf, h1, h2]
  · show parseChars (trimChars "  12,345 kg ST ".toList) = _
    rw [show trimChars "  12,345 kg ST ".toList = "12,345 kg ST".toList from
      by decide]
    rw [parseChars_kg "12,345 kg ST".toList ⟨false, ['1','2'], ['3','4','5']⟩
      (by decide) (by decide) (Or.inl (by decide))]
    rw [show stabilityOf "12,345 kg ST".toList = true from by decide]
    have h1 : digitsToNat ['1','2'] = 12 := by decide
    have h2 : digitsToNat ['3','4','5'] = 345 := by decide
    norm_num [tokenValue, jsRound, h1, h2]
  · show parseChars (trimChars "1500 g US".toList) = _
    rw [show trimChars "1500 g US".toList = "1500 g US".toList from by decide]
    rw [parseChars_g "1500 g US".toList ⟨false, ['1','5','0','0'], []⟩
      (by decide) (by decide) (by decide) (by decide)]
    rw [show stabilityOf "1500 g US".toList = false from by decide]
    have h1 : digitsToNat ['1','5','0','0'] = 1500 := by decide
    have h2 : digitsToNat [] = 0 := by decide
    norm_num [tokenValue, jsRound, h1, h2]
  · show parseChars (trimChars "ST,GS,  12.345 kg".toList) = _
    rw [show trimChars "ST,GS,  12.345 kg".toList =
      "ST,GS,  12.345 kg".toList from by decide]
    rw [parseChars_kg "ST,GS,  12.345 kg".toList
      ⟨false, ['1','2'], ['3','4','5']⟩
      (by decide) (by decide) (Or.inl (by decide))]
    rw [show stabilityOf "ST,GS,  12.345 kg".toList = true from by decide]
    have h1 : digitsToNat ['1','2'] = 12 := by decide
    have h2 : digitsToNat ['3','4','5'] = 345 := by decide
    norm_num [tokenValue, jsRound, h1, h2]

/-- Witness for C7 on numberless, stable-marked, unstable-marked and
unmarked inputs. -/
theorem parseLine_tolerant_grammar_witness :
    parseLine "no numeric token" = none ∧
    stabilityOf ("w st".toList) = true ∧
    stabilityOf ("w us".toList) = false ∧
    stabilityOf ("w".toList) = true :=
  ⟨parseLine_tolerant_grammar.1 "no numeric token" (by decide),
   parseLine_tolerant_grammar.2.1 _ (by decide),
   parseLine_tolerant_grammar.2.2.1 _ (by decide) (by decide),
   parseLine_tolerant_grammar.2.2.2.1 _ (by decide) (by decide)⟩

end WeightSyncPro
